import Mathlib

/-!
Verification of the BciPy acquisition-buffer specification.

The repository snapshot contains only the demo callers of the buffer
subsystem (`bcipy/acquisition/demo/demo_buffer.py`,
`bcipy/acquisition/demo/demo_buffer_server.py`), together with the
trial-reshaping routine (`eeg_model/mach_learning/trial_reshaper.py`) and
the acquisition initialisation helper (`helpers/acquisition_related.py`).
The `Buffer` / `BufferServer` implementations themselves are not part of
the snapshot, so they are modelled from the specification (sections 3,
4.1, 4.2, 7 and 8); the trial reshaper and the acquisition helper are
embedded from their Python source.
-/

namespace BciPy

/-- Modelled from the spec: error kinds of section 7 (the buffer
implementation raising them is missing from the snapshot). -/
inductive BufErr where
  | ShapeError
  | RangeError
  | MediumError
  | ConnectionLost
  | HandleInvalidError
deriving DecidableEq, Repr

/-- Modelled from the spec: a `Record` is a fixed-width channel-value
vector, a timestamp and an optional auxiliary payload (spec section 3).
Numeric samples are modelled as integers; the auxiliary payload as an
optional opaque integer. -/
structure Record where
  channel_values : List Int
  timestamp : Int
  auxiliary : Option Int
deriving DecidableEq, Repr

/-- Modelled from the spec: the `Buffer` state (spec section 3).  The
durable medium holds the flushed records in sequence order, the working
set holds the not-yet-flushed tail; `released` records that `cleanup`
has released the medium handle and `diskPresent` whether the on-disk
artifacts still exist. -/
structure Buffer where
  channels : List String
  chunksize : Nat
  backing_name : String
  medium : List Record
  working : List Record
  released : Bool
  diskPresent : Bool
deriving DecidableEq, Repr

/-- Modelled from the spec: a Buffer is created empty with a channel
list and configuration; construction creates the backing medium file. -/
def Buffer.new (channels : List String) (chunksize : Nat)
    (backing_name : String) : Buffer :=
  { channels := channels, chunksize := chunksize,
    backing_name := backing_name, medium := [], working := [],
    released := false, diskPresent := true }

/-- The full logical record sequence: flushed records followed by the
working set, in sequence order. -/
def Buffer.records (b : Buffer) : List Record :=
  b.medium ++ b.working

/-- Modelled from the spec: `sequence_count` is the total number of
records ever appended (spec section 3). -/
def Buffer.sequence_count (b : Buffer) : Nat :=
  b.medium.length + b.working.length

/-- Modelled from the spec: `count()` returns `sequence_count` with no
side effects (spec section 4.1). -/
def Buffer.count (b : Buffer) : Nat :=
  b.sequence_count

/-- Modelled from the spec: the length/size accessor mirrors `count()`
(spec section 4.1; `len(buf)` in `demo_buffer.py`). -/
def Buffer.size (b : Buffer) : Nat :=
  b.count

/-- Modelled from the spec: `append(record)` fails with a ShapeError when
the record's channel-value length differs from the Buffer's channel
count; otherwise the record enters the working set and, when the working
set reaches the configured chunk size, the chunk is flushed to the
durable medium as one batch and the working set is cleared (spec
section 4.1). -/
def Buffer.append (b : Buffer) (r : Record) : Except BufErr Buffer :=
  if r.channel_values.length ≠ b.channels.length then
    .error .ShapeError
  else if (b.working ++ [r]).length = b.chunksize then
    .ok { b with medium := b.medium ++ (b.working ++ [r]), working := [] }
  else
    .ok { b with working := b.working ++ [r] }

/-- Modelled from the spec: `flush()` forces resident working-set
records to the durable medium regardless of chunk fullness (spec
section 4.1). -/
def Buffer.flush (b : Buffer) : Buffer :=
  { b with medium := b.medium ++ b.working, working := [] }

/-- Modelled from the spec: `query(start, stop)` returns the records
with sequence index in `[start, stop)`, merging the durable medium with
the working set; RangeError when `start < 0`, `stop < start` or
`start ≥ sequence_count`; `stop` beyond `sequence_count` is clamped
(spec section 4.1).  Read-only, so the returned state is the input
state. -/
def Buffer.query (b : Buffer) (start stop : Int) :
    Except BufErr (List Record × Buffer) :=
  if start < 0 ∨ stop < start ∨ (b.sequence_count : Int) ≤ start then
    .error .RangeError
  else
    let stopC := min stop (b.sequence_count : Int)
    .ok ((((b.medium ++ b.working).drop start.toNat).take
            (stopC - start).toNat, b))

/-- Modelled from the spec: `cleanup()` flushes, releases the durable
medium handle and removes the on-disk artifacts; it is idempotent (spec
section 4.1). -/
def Buffer.cleanup (b : Buffer) : Buffer :=
  if b.released then b
  else
    let f := b.flush
    { f with medium := [], released := true, diskPresent := false }

/-- Appending a list of records in order (the demo loop in
`demo_buffer.py`). -/
def Buffer.appendAll (b : Buffer) (rs : List Record) : Except BufErr Buffer :=
  match rs with
  | [] => .ok b
  | r :: rest =>
    match b.append r with
    | .error e => .error e
    | .ok b2 => b2.appendAll rest

/-- Default chunk size used when a Buffer is hosted by the server (the
demo scripts use 10000). -/
def defaultChunksize : Nat := 10000

/-- Modelled from the spec: the handle registry owned by the layer that
issues handles (spec sections 4.2 and 9); a `BufferServer` hosts one
Buffer per live handle.  The message-passing transport is abstracted
away: each call is a synchronous request/response against the hosted
Buffer. -/
structure ServerState where
  nextHandle : Nat
  registry : List (Nat × Buffer)
deriving DecidableEq, Repr

/-- The registry state before any server was started. -/
def ServerState.empty : ServerState :=
  { nextHandle := 0, registry := [] }

/-- Resolve a handle to its hosted Buffer, when the handle is live. -/
def ServerState.lookup (s : ServerState) (h : Nat) : Option Buffer :=
  (s.registry.find? (fun p => p.1 == h)).map (fun p => p.2)

/-- Replace the Buffer hosted under a live handle. -/
def ServerState.update (s : ServerState) (h : Nat) (b : Buffer) :
    ServerState :=
  { s with registry := s.registry.map (fun p => if p.1 == h then (h, b) else p) }

/-- Modelled from the spec: `start(channels, backing_name)` creates an
isolated context hosting a fresh Buffer and returns its handle (spec
section 4.2). -/
def ServerState.start (s : ServerState) (channels : List String)
    (backing_name : String) : Nat × ServerState :=
  (s.nextHandle,
   { nextHandle := s.nextHandle + 1,
     registry := (s.nextHandle,
                  Buffer.new channels defaultChunksize backing_name)
                 :: s.registry })

/-- Modelled from the spec: `append(handle, record)`; an operation on a
stopped or unknown handle raises HandleInvalidError (spec sections 4.2
and 7). -/
def serverAppend (s : ServerState) (h : Nat) (r : Record) :
    Except BufErr ServerState :=
  match s.lookup h with
  | none => .error .HandleInvalidError
  | some b => (b.append r).map (fun b2 => s.update h b2)

/-- Modelled from the spec: `count(handle)` (spec section 4.2). -/
def serverCount (s : ServerState) (h : Nat) : Except BufErr Nat :=
  match s.lookup h with
  | none => .error .HandleInvalidError
  | some b => .ok b.count

/-- Modelled from the spec: `get_data(handle, start, stop)` (spec
section 4.2). -/
def serverGetData (s : ServerState) (h : Nat) (start stop : Int) :
    Except BufErr (List Record) :=
  match s.lookup h with
  | none => .error .HandleInvalidError
  | some b => (b.query start stop).map (fun p => p.1)

/-- Modelled from the spec: `stop(handle)` instructs the hosted context
to run `cleanup` on its Buffer and terminate; afterwards the handle is
removed from the registry and is invalid for all further operations
(spec sections 3 and 4.2). -/
def serverStop (s : ServerState) (h : Nat) : Except BufErr ServerState :=
  match s.lookup h with
  | none => .error .HandleInvalidError
  | some _ =>
    .ok { s with registry := s.registry.filter (fun p => p.1 != h) }

/-!
Embedding of `eeg_model/mach_learning/trial_reshaper.py` (Python 2
semantics: `map` returns a list).
-/

/-- One parsed line of the triggers file, as `trial_reshaper` consumes
it: `line[1]` is the second whitespace-separated field (compared against
the literal string target) and `line[2]` is the third field, of which
the code takes `eval(line[2])`, a numeric timing value modelled here as
the rational `field2`. -/
structure TriggerLine where
  field0 : String
  field1 : String
  field2 : ℚ
deriving DecidableEq, Repr

/-- Python `int()` applied to a real value: truncation toward zero
(floor for nonnegative values, ceiling for negative ones). -/
def pyint (q : ℚ) : Int :=
  if 0 ≤ q then ⌊q⌋ else ⌈q⌉

/-- Normalise one bound of a Python slice `l[a:b]` for a list of length
`n`: negative indices count from the end, and bounds are clamped to
`[0, n]`. -/
def pySliceIdx (n : Nat) (i : Int) : Nat :=
  if i < 0 then ((n : Int) + i).toNat else min i.toNat n

/-- Python list/array slice `l[a:b]` with integer bounds. -/
def pySlice (l : List ℚ) (a b : Int) : List ℚ :=
  (l.take (pySliceIdx l.length b)).drop (pySliceIdx l.length a)

/-- NumPy row assignment `row[:] = xs` into a row of length `n`:
succeeds when `xs` has length `n`, broadcasts a single element, and
raises a ValueError (modelled as `none`) otherwise. -/
def npSetRow (xs : List ℚ) (n : Nat) : Option (List ℚ) :=
  if xs.length = n then some xs
  else if xs.length = 1 then some (List.replicate n (xs.headD 0))
  else none

/-- Embedding of `trial_reshaper(trigger_location, filtered_eeg, fs, k)`:
the triggers file has already been read and parsed into `trigger_txt`
(the file loader `helpers.load.load_trigger_data` is outside the
snapshot).  Trigger timings become sample indices
`int(t*fs/k) - 1`; `num_samples = int(1.*fs/2/k)`; every trial and
channel receives the slice
`filtered_eeg[channel][trigger : trigger + num_samples]`, and
`labels[trial] = 1` exactly when `trigger_txt[trial][1] == target`.
A failing NumPy assignment makes the whole call fail (`none`). -/
def trial_reshaper (trigger_txt : List TriggerLine)
    (filtered_eeg : List (List ℚ)) (fs k : Nat) :
    Option (List (List (List ℚ)) × List ℚ) :=
  let triggers := trigger_txt.map
    (fun line => pyint (line.field2 * (fs : ℚ) / (k : ℚ)) - 1)
  let num_samples := fs / 2 / k
  let labels := trigger_txt.map
    (fun line => if line.field1 = "target" then (1 : ℚ) else 0)
  (triggers.mapM (fun t =>
     filtered_eeg.mapM (fun channel =>
       npSetRow (pySlice channel t (t + (num_samples : Int))) num_samples))).map
    (fun reshaped_trials => (reshaped_trials, labels))

/-!
Embedding of the configuration handling of
`helpers/acquisition_related.py` (`init_eeg_acquisition`).
-/

/-- A Python value as it occurs in the parameters dict: a string, an
integer, or a nested dict. -/
inductive PyVal where
  | str : String → PyVal
  | int : Int → PyVal
  | dict : List (String × PyVal) → PyVal

/-- Python `d[key]`: `none` models a KeyError. -/
def pyGet? (d : List (String × PyVal)) (key : String) : Option PyVal :=
  (d.find? (fun p => p.1 == key)).map (fun p => p.2)

/-- Python `d.get(key, default)`. -/
def pyGetD (d : List (String × PyVal)) (key : String) (dflt : PyVal) :
    PyVal :=
  match d.find? (fun p => p.1 == key) with
  | some p => p.2
  | none => dflt

/-- Python string value, for `+` concatenation: a non-string raises a
TypeError, modelled as `none`. -/
def asStr : PyVal → Option String
  | .str s => some s
  | _ => none

/-- The parameters dict as `init_eeg_acquisition` rebuilds it:
`buffer_name` and `filename` are prefixed with the save folder, the
device is copied from `acq_device`, and host/port move into a nested
`connection_params` dict. -/
def rebuilt_parameters (parameters : List (String × PyVal))
    (save_folder : String) : Option (List (String × PyVal)) := do
  let host ← pyGet? parameters "acq_host"
  let port ← pyGet? parameters "acq_port"
  let bufv ← pyGet? parameters "buffer_name"
  let bufs ← asStr bufv
  let devv ← pyGet? parameters "acq_device"
  let rawv ← pyGet? parameters "raw_data_name"
  let raws ← asStr rawv
  some [("buffer_name", .str (save_folder ++ "/" ++ bufs)),
        ("device", devv),
        ("filename", .str (save_folder ++ "/" ++ raws)),
        ("connection_params", .dict [("host", host), ("port", port)])]

/-- The two constructor arguments of `Client` that the claim is about. -/
structure ClientArgs where
  buffer_name : String
  filename : String
deriving DecidableEq, Repr

/-- Embedding of the configuration path of `init_eeg_acquisition`: the
parameters dict is rebuilt, then `buffer_name` and `filename` are read
back with `.get` and the fallback defaults, and passed to the `Client`
constructor.  Device registry, socket servers and the client itself are
external collaborators (spec section 1) and are not modelled. -/
def init_eeg_acquisition (parameters : List (String × PyVal))
    (save_folder : String) : Option ClientArgs := do
  let ps ← rebuilt_parameters parameters save_folder
  let buffer_name := pyGetD ps "buffer_name" (.str "buffer.db")
  let filename := pyGetD ps "filename" (.str "rawdata.csv")
  let bn ← asStr buffer_name
  let fn ← asStr filename
  some { buffer_name := bn, filename := fn }

/-!
Basic lemmas about the Buffer model.
-/

lemma Buffer.records_length (b : Buffer) :
    b.records.length = b.sequence_count := by
  simp [Buffer.records, Buffer.sequence_count]

lemma Buffer.append_ok (b : Buffer) (r : Record)
    (h : r.channel_values.length = b.channels.length) :
    ∃ b2, b.append r = .ok b2 ∧ b2.records = b.records ++ [r] ∧
      b2.channels = b.channels ∧ b2.chunksize = b.chunksize ∧
      b2.released = b.released ∧ b2.diskPresent = b.diskPresent ∧
      b2.backing_name = b.backing_name := by
  by_cases hc : b.working.length + 1 = b.chunksize
  · refine ⟨{ b with medium := b.medium ++ (b.working ++ [r]), working := [] },
      ?_, ?_, rfl, rfl, rfl, rfl, rfl⟩
    · simp [Buffer.append, h, hc]
    · simp [Buffer.records]
  · refine ⟨{ b with working := b.working ++ [r] },
      ?_, ?_, rfl, rfl, rfl, rfl, rfl⟩
    · simp [Buffer.append, h, hc]
    · simp [Buffer.records]

lemma Buffer.appendAll_ok (rs : List Record) : ∀ b : Buffer,
    (∀ r ∈ rs, r.channel_values.length = b.channels.length) →
    ∃ b2, b.appendAll rs = .ok b2 ∧ b2.records = b.records ++ rs ∧
      b2.channels = b.channels ∧ b2.chunksize = b.chunksize ∧
      b2.released = b.released ∧ b2.diskPresent = b.diskPresent ∧
      b2.backing_name = b.backing_name := by
  induction rs with
  | nil =>
    intro b _
    exact ⟨b, rfl, by simp [Buffer.records], rfl, rfl, rfl, rfl, rfl⟩
  | cons r rest ih =>
    intro b hall
    obtain ⟨b1, hap, hrec, hch, hcs, hrel, hdp, hbn⟩ :=
      Buffer.append_ok b r (hall r (by simp))
    obtain ⟨b2, hap2, hrec2, hch2, hcs2, hrel2, hdp2, hbn2⟩ :=
      ih b1 (fun r2 hr2 => by rw [hch]; exact hall r2 (by simp [hr2]))
    refine ⟨b2, ?_, ?_, ?_, ?_, ?_, ?_, ?_⟩
    · simp [Buffer.appendAll, hap, hap2]
    · rw [hrec2, hrec, List.append_assoc]; rfl
    · rw [hch2, hch]
    · rw [hcs2, hcs]
    · rw [hrel2, hrel]
    · rw [hdp2, hdp]
    · rw [hbn2, hbn]

/-- C1: appending `n ≥ 1` well-shaped records to a fresh Buffer always
succeeds, and `query(0, n)` returns exactly those records in append
order, for every chunk size (below, at, or spanning flush
boundaries). -/
theorem appendAll_query_roundtrip (channels : List String)
    (chunksize : Nat) (name : String) (rs : List Record)
    (hshape : ∀ r ∈ rs, r.channel_values.length = channels.length)
    (hn : 0 < rs.length) :
    ∃ b : Buffer,
      (Buffer.new channels chunksize name).appendAll rs = .ok b ∧
      b.query 0 (rs.length : Int) = .ok (rs, b) := by
  obtain ⟨b, hap, hrec, hch, _, _, _, _⟩ :=
    Buffer.appendAll_ok rs (Buffer.new channels chunksize name)
      (by simpa [Buffer.new] using hshape)
  refine ⟨b, hap, ?_⟩
  have hmw : b.medium ++ b.working = rs := by
    simpa [Buffer.records, Buffer.new] using hrec
  have hcount : b.sequence_count = rs.length := by
    rw [← Buffer.records_length]; simp [Buffer.records, hmw]
  have hcond : ¬((0:Int) < 0 ∨ (rs.length : Int) < 0 ∨
      (b.sequence_count : Int) ≤ 0) := by
    omega
  rw [Buffer.query, if_neg hcond]
  simp [hmw, hcount]

/-- C1 counterexample at `n = 0`: appending the empty record sequence to
a fresh Buffer and then calling `query(0, 0)` yields a RangeError
(`start ≥ sequence_count`), not the empty record list. -/
theorem appendAll_query_roundtrip_zero_cex :
    (Buffer.new ["ch0"] 10000 "buffer.db").appendAll [] =
      .ok (Buffer.new ["ch0"] 10000 "buffer.db") ∧
    (Buffer.new ["ch0"] 10000 "buffer.db").query 0 0 =
      .error .RangeError := by
  exact ⟨rfl, rfl⟩

/-- C1 witness: three 1-channel records with chunk size 2 (spanning a
flush boundary) round-trip through `query(0, 3)`. -/
theorem appendAll_query_roundtrip_witness :
    ∃ b : Buffer,
      (Buffer.new ["ch0"] 2 "buffer.db").appendAll
        [⟨[5], 0, none⟩, ⟨[6], 1, none⟩, ⟨[7], 2, none⟩] = .ok b ∧
      b.query 0 (([⟨[5], 0, none⟩, ⟨[6], 1, none⟩,
        (⟨[7], 2, none⟩ : Record)] : List Record).length : Int) =
        .ok ([⟨[5], 0, none⟩, ⟨[6], 1, none⟩, ⟨[7], 2, none⟩], b) :=
  appendAll_query_roundtrip ["ch0"] 2 "buffer.db"
    [⟨[5], 0, none⟩, ⟨[6], 1, none⟩, ⟨[7], 2, none⟩]
    (by decide) (by decide)

/-- C2: appending `n` well-shaped records to a fresh Buffer always
succeeds and leaves `count()` equal to `n`, for every chunk size (hence
regardless of how many flush boundaries were crossed), and the size
accessor agrees with `count()`. -/
theorem appendAll_count (channels : List String) (chunksize : Nat)
    (name : String) (rs : List Record)
    (hshape : ∀ r ∈ rs, r.channel_values.length = channels.length) :
    ∃ b : Buffer,
      (Buffer.new channels chunksize name).appendAll rs = .ok b ∧
      b.count = rs.length ∧ b.size = b.count := by
  obtain ⟨b, hap, hrec, _, _, _, _, _⟩ :=
    Buffer.appendAll_ok rs (Buffer.new channels chunksize name)
      (by simpa [Buffer.new] using hshape)
  refine ⟨b, hap, ?_, rfl⟩
  rw [Buffer.count, ← Buffer.records_length, hrec]
  simp [Buffer.records, Buffer.new]

/-- C2 witness: five 1-channel records with chunk size 2 cross two flush
boundaries and leave `count()` at 5. -/
theorem appendAll_count_witness :
    ∃ b : Buffer,
      (Buffer.new ["ch0"] 2 "buffer.db").appendAll
        [⟨[1], 0, none⟩, ⟨[2], 1, none⟩, ⟨[3], 2, none⟩,
         ⟨[4], 3, none⟩, ⟨[5], 4, none⟩] = .ok b ∧
      b.count = ([⟨[1], 0, none⟩, ⟨[2], 1, none⟩, ⟨[3], 2, none⟩,
         ⟨[4], 3, none⟩, (⟨[5], 4, none⟩ : Record)] : List Record).length ∧
      b.size = b.count :=
  appendAll_count ["ch0"] 2 "buffer.db"
    [⟨[1], 0, none⟩, ⟨[2], 1, none⟩, ⟨[3], 2, none⟩,
     ⟨[4], 3, none⟩, ⟨[5], 4, none⟩] (by decide)

lemma Buffer.append_records (b : Buffer) (r : Record) (b2 : Buffer)
    (h : b.append r = .ok b2) : b2.records = b.records ++ [r] := by
  rw [Buffer.append] at h
  split at h
  · exact absurd h (by simp)
  · split at h
    · injection h with h2
      subst h2
      simp [Buffer.records]
    · injection h with h2
      subst h2
      simp [Buffer.records]

/-- C3: in every Buffer state, each sequence index below
`sequence_count` holds exactly one retrievable record (`query(i, i+1)`
returns a singleton); re-running a query on the state a query returned
gives the identical result (a committed record is never mutated, as
`append` extends the record sequence without touching the committed
prefix); and `sequence_count` never decreases under `append` or
`flush`. -/
theorem buffer_invariants :
    (∀ (b : Buffer) (i : Nat), i < b.sequence_count →
      b.query (i : Int) ((i : Int) + 1) =
        .ok ((b.records.drop i).take 1, b) ∧
      ((b.records.drop i).take 1).length = 1) ∧
    (∀ (b : Buffer) (s t : Int) (l : List Record) (b2 : Buffer),
      b.query s t = .ok (l, b2) → b2.query s t = .ok (l, b2)) ∧
    (∀ (b : Buffer) (r : Record) (b2 : Buffer), b.append r = .ok b2 →
      b2.records.take b.sequence_count = b.records ∧
      b.sequence_count ≤ b2.sequence_count) ∧
    (∀ b : Buffer, b.sequence_count ≤ b.flush.sequence_count) := by
  refine ⟨?_, ?_, ?_, ?_⟩
  · intro b i hi
    have hc : ¬((i : Int) < 0 ∨ (i : Int) + 1 < (i : Int) ∨
        (b.sequence_count : Int) ≤ (i : Int)) := by omega
    constructor
    · have hmin : min ((i : Int) + 1) (b.sequence_count : Int) =
          (i : Int) + 1 := by omega
      have ht : ((i : Int) + 1 - (i : Int)).toNat = 1 := by omega
      have hii : ((i : Int)).toNat = i := by omega
      rw [Buffer.query, if_neg hc]
      simp [hmin, ht, hii, Buffer.records]
    · have hlen := Buffer.records_length b
      rw [List.length_take, List.length_drop]
      omega
  · intro b s t l b2 h
    rw [Buffer.query] at h
    split at h
    · exact absurd h (by simp)
    · rename_i hcond
      simp only [Except.ok.injEq, Prod.mk.injEq] at h
      obtain ⟨hl, hb⟩ := h
      subst hb
      rw [Buffer.query, if_neg hcond]
      simp [hl]
  · intro b r b2 h
    have hrec := Buffer.append_records b r b2 h
    have h1 : b2.records.take b.sequence_count = b.records := by
      rw [hrec, ← Buffer.records_length, List.take_left]
    have h2 : b2.sequence_count = b.sequence_count + 1 := by
      rw [← Buffer.records_length, ← Buffer.records_length, hrec]
      simp
    exact ⟨h1, by omega⟩
  · intro b
    simp [Buffer.flush, Buffer.sequence_count]

/-- C3 witness: in a Buffer holding one flushed and one working-set
record, index 1 is retrievable as a singleton via `query(1, 2)`. -/
theorem buffer_invariants_witness :
    (⟨["a"], 4, "x", [⟨[1], 0, none⟩], [⟨[2], 1, none⟩], false, true⟩ :
        Buffer).query 1 2 =
      .ok ((((⟨["a"], 4, "x", [⟨[1], 0, none⟩], [⟨[2], 1, none⟩],
          false, true⟩ : Buffer)).records.drop 1).take 1,
        (⟨["a"], 4, "x", [⟨[1], 0, none⟩], [⟨[2], 1, none⟩],
          false, true⟩ : Buffer)) ∧
    ((((⟨["a"], 4, "x", [⟨[1], 0, none⟩], [⟨[2], 1, none⟩],
        false, true⟩ : Buffer)).records.drop 1).take 1).length = 1 :=
  buffer_invariants.1
    (⟨["a"], 4, "x", [⟨[1], 0, none⟩], [⟨[2], 1, none⟩], false, true⟩ :
      Buffer) 1 (by decide)

/-- C4: `query(start, stop)` raises RangeError exactly when `start < 0`,
`stop < start` or `start ≥ sequence_count`; for a valid `start` with
`stop` beyond `sequence_count` the bound is clamped to `sequence_count`
(a partial result rather than an error); and `query(k, k)` for any
valid `k` returns the empty sequence. -/
theorem query_range_spec (b : Buffer) (s t : Int) :
    (b.query s t = .error .RangeError ↔
      s < 0 ∨ t < s ∨ (b.sequence_count : Int) ≤ s) ∧
    (0 ≤ s → s < (b.sequence_count : Int) → (b.sequence_count : Int) < t →
      b.query s t = b.query s (b.sequence_count : Int)) ∧
    (0 ≤ s → s < (b.sequence_count : Int) → b.query s s = .ok ([], b)) := by
  refine ⟨⟨?_, ?_⟩, ?_, ?_⟩
  · intro h
    by_contra hc
    rw [Buffer.query, if_neg hc] at h
    exact absurd h (by simp)
  · intro hc
    rw [Buffer.query, if_pos hc]
  · intro h0 hlt hgt
    have hc : ¬(s < 0 ∨ t < s ∨ (b.sequence_count : Int) ≤ s) := by omega
    have hc2 : ¬(s < 0 ∨ (b.sequence_count : Int) < s ∨
        (b.sequence_count : Int) ≤ s) := by omega
    have hm : min t (b.sequence_count : Int) =
        min (b.sequence_count : Int) (b.sequence_count : Int) := by omega
    rw [Buffer.query, if_neg hc, Buffer.query, if_neg hc2, hm]
  · intro h0 hlt
    have hc : ¬(s < 0 ∨ s < s ∨ (b.sequence_count : Int) ≤ s) := by omega
    have hm : min s (b.sequence_count : Int) = s := by omega
    rw [Buffer.query, if_neg hc]
    simp [hm]

/-- C4 witness: on a 2-record Buffer, `query(0, 5)` behaves like
`query(0, 2)` (clamping, no error) and `query(0, 0)` is empty. -/
theorem query_range_spec_witness :
    ((⟨["a"], 4, "x", [⟨[1], 0, none⟩], [⟨[2], 1, none⟩], false, true⟩ :
        Buffer).query 0 5 = .error .RangeError ↔
      (0 : Int) < 0 ∨ (5 : Int) < 0 ∨
      (((⟨["a"], 4, "x", [⟨[1], 0, none⟩], [⟨[2], 1, none⟩], false,
          true⟩ : Buffer)).sequence_count : Int) ≤ 0) ∧
    (⟨["a"], 4, "x", [⟨[1], 0, none⟩], [⟨[2], 1, none⟩], false, true⟩ :
        Buffer).query 0 5 =
      (⟨["a"], 4, "x", [⟨[1], 0, none⟩], [⟨[2], 1, none⟩], false, true⟩ :
        Buffer).query 0
        (((⟨["a"], 4, "x", [⟨[1], 0, none⟩], [⟨[2], 1, none⟩], false,
            true⟩ : Buffer)).sequence_count : Int) ∧
    (⟨["a"], 4, "x", [⟨[1], 0, none⟩], [⟨[2], 1, none⟩], false, true⟩ :
        Buffer).query 0 0 =
      .ok ([], (⟨["a"], 4, "x", [⟨[1], 0, none⟩], [⟨[2], 1, none⟩],
        false, true⟩ : Buffer)) :=
  ⟨(query_range_spec _ 0 5).1,
   (query_range_spec _ 0 5).2.1 (by decide) (by decide) (by decide),
   (query_range_spec _ 0 5).2.2 (by decide) (by decide)⟩

/-- C5: appending a record whose channel-value length differs from the
Buffer's channel count fails with ShapeError, and the pure `append`
yields no successor state (so `count()` and the stored record sequence
are unchanged); in particular every 3-channel Buffer rejects every
2-channel record. -/
theorem append_shape_error :
    (∀ (b : Buffer) (r : Record),
      r.channel_values.length ≠ b.channels.length →
      b.append r = .error .ShapeError) ∧
    (∀ (b : Buffer) (r : Record), b.channels.length = 3 →
      r.channel_values.length = 2 → b.append r = .error .ShapeError) := by
  have h1 : ∀ (b : Buffer) (r : Record),
      r.channel_values.length ≠ b.channels.length →
      b.append r = .error .ShapeError := by
    intro b r h
    rw [Buffer.append, if_pos h]
  exact ⟨h1, fun b r h3 h2 => h1 b r (by omega)⟩

/-- C5 witness: a 3-channel Buffer rejects a concrete 2-channel
record. -/
theorem append_shape_error_witness :
    (⟨["a", "b", "c"], 4, "x", [], [], false, true⟩ : Buffer).append
      ⟨[1, 2], 0, none⟩ = .error .ShapeError :=
  append_shape_error.2
    (⟨["a", "b", "c"], 4, "x", [], [], false, true⟩ : Buffer)
    ⟨[1, 2], 0, none⟩ (by decide) (by decide)

/-- C7: `cleanup` is idempotent — the second call is a no-op (and
raises nothing, `cleanup` being total), leaving the on-disk state
(artifact presence and durable-medium contents) identical to a single
call. -/
theorem cleanup_idempotent (b : Buffer) :
    b.cleanup.cleanup = b.cleanup ∧
    b.cleanup.cleanup.diskPresent = b.cleanup.diskPresent ∧
    b.cleanup.cleanup.medium = b.cleanup.medium := by
  by_cases hb : b.released = true
  · simp [Buffer.cleanup, Buffer.flush, hb]
  · simp [Buffer.cleanup, Buffer.flush, hb]

/-- C8: `query` is read-only — whenever it succeeds the returned state
is the input state, so `sequence_count`, the working set and the
durable medium are all unchanged. -/
theorem query_readonly (b : Buffer) (s t : Int) (l : List Record)
    (b2 : Buffer) (h : b.query s t = .ok (l, b2)) :
    b2 = b ∧ b2.sequence_count = b.sequence_count ∧
    b2.working = b.working ∧ b2.medium = b.medium ∧
    b2.diskPresent = b.diskPresent := by
  rw [Buffer.query] at h
  split at h
  · exact absurd h (by simp)
  · simp only [Except.ok.injEq, Prod.mk.injEq] at h
    obtain ⟨-, hb⟩ := h
    subst hb
    exact ⟨rfl, rfl, rfl, rfl, rfl⟩

/-- C8 witness: a concrete successful query returns its input state. -/
theorem query_readonly_witness :
    (⟨["a"], 4, "x", [⟨[9], 0, none⟩], [], false, true⟩ : Buffer) =
      (⟨["a"], 4, "x", [⟨[9], 0, none⟩], [], false, true⟩ : Buffer) ∧
    (⟨["a"], 4, "x", [⟨[9], 0, none⟩], [], false, true⟩ :
        Buffer).sequence_count =
      (⟨["a"], 4, "x", [⟨[9], 0, none⟩], [], false, true⟩ :
        Buffer).sequence_count ∧
    (⟨["a"], 4, "x", [⟨[9], 0, none⟩], [], false, true⟩ :
        Buffer).working =
      (⟨["a"], 4, "x", [⟨[9], 0, none⟩], [], false, true⟩ :
        Buffer).working ∧
    (⟨["a"], 4, "x", [⟨[9], 0, none⟩], [], false, true⟩ :
        Buffer).medium =
      (⟨["a"], 4, "x", [⟨[9], 0, none⟩], [], false, true⟩ :
        Buffer).medium ∧
    (⟨["a"], 4, "x", [⟨[9], 0, none⟩], [], false, true⟩ :
        Buffer).diskPresent =
      (⟨["a"], 4, "x", [⟨[9], 0, none⟩], [], false, true⟩ :
        Buffer).diskPresent :=
  query_readonly
    (⟨["a"], 4, "x", [⟨[9], 0, none⟩], [], false, true⟩ : Buffer)
    0 1 [⟨[9], 0, none⟩]
    (⟨["a"], 4, "x", [⟨[9], 0, none⟩], [], false, true⟩ : Buffer)
    (by rfl)

lemma lookup_after_filter (l : List (Nat × Buffer)) (h : Nat) :
    (l.filter (fun p => p.1 != h)).find? (fun p => p.1 == h) = none := by
  induction l with
  | nil => rfl
  | cons x xs ih =>
    by_cases hx : x.1 = h
    · simp [List.filter_cons, hx, ih]
    · simp [List.filter_cons, List.find?_cons, hx, ih]

/-- C6: a stopped handle is invalid — after `stop(handle)` succeeds,
`append(handle, record)` raises HandleInvalidError for every record;
and for every triple of 2-channel records, the scenario
`start(["ch0","ch1"], "buf.db")`, three appends, `count = 3`,
`get_data(0, 3)` returning the records in insertion order, `stop`, and
a final failing `append` holds. -/
theorem server_handle_scenario :
    (∀ (s : ServerState) (h : Nat) (s2 : ServerState),
      serverStop s h = .ok s2 →
      ∀ r : Record, serverAppend s2 h r = .error .HandleInvalidError) ∧
    (∀ r1 r2 r3 : Record,
      r1.channel_values.length = 2 → r2.channel_values.length = 2 →
      r3.channel_values.length = 2 →
      ∃ s1 s2 s3 s4 : ServerState,
        serverAppend (ServerState.empty.start ["ch0", "ch1"] "buf.db").2
          (ServerState.empty.start ["ch0", "ch1"] "buf.db").1 r1 = .ok s1 ∧
        serverAppend s1
          (ServerState.empty.start ["ch0", "ch1"] "buf.db").1 r2 = .ok s2 ∧
        serverAppend s2
          (ServerState.empty.start ["ch0", "ch1"] "buf.db").1 r3 = .ok s3 ∧
        serverCount s3
          (ServerState.empty.start ["ch0", "ch1"] "buf.db").1 = .ok 3 ∧
        serverGetData s3
          (ServerState.empty.start ["ch0", "ch1"] "buf.db").1 0 3 =
          .ok [r1, r2, r3] ∧
        serverStop s3
          (ServerState.empty.start ["ch0", "ch1"] "buf.db").1 = .ok s4 ∧
        serverAppend s4
          (ServerState.empty.start ["ch0", "ch1"] "buf.db").1 r1 =
          .error .HandleInvalidError) := by
  constructor
  · intro s h s2 hstop r
    rw [serverStop.eq_def] at hstop
    split at hstop
    · exact absurd hstop (by simp)
    · injection hstop with he
      subst he
      have hnone : ({ s with
          registry := s.registry.filter (fun p => p.1 != h) } :
            ServerState).lookup h = none := by
        rw [ServerState.lookup]
        simp [lookup_after_filter]
      simp only [serverAppend.eq_def, hnone]
  · intro r1 r2 r3 h1 h2 h3
    refine ⟨⟨1, [(0, ⟨["ch0", "ch1"], defaultChunksize, "buf.db",
                  [], [r1], false, true⟩)]⟩,
            ⟨1, [(0, ⟨["ch0", "ch1"], defaultChunksize, "buf.db",
                  [], [r1, r2], false, true⟩)]⟩,
            ⟨1, [(0, ⟨["ch0", "ch1"], defaultChunksize, "buf.db",
                  [], [r1, r2, r3], false, true⟩)]⟩,
            ⟨1, []⟩, ?_, ?_, ?_, ?_, ?_, ?_, ?_⟩
    · simp [ServerState.empty, ServerState.start, serverAppend,
            ServerState.lookup, ServerState.update, Buffer.append,
            Buffer.new, defaultChunksize, Except.map, h1]
    · simp [ServerState.empty, ServerState.start, serverAppend,
            ServerState.lookup, ServerState.update, Buffer.append,
            Buffer.new, defaultChunksize, Except.map, h2]
    · simp [ServerState.empty, ServerState.start, serverAppend,
            ServerState.lookup, ServerState.update, Buffer.append,
            Buffer.new, defaultChunksize, Except.map, h3]
    · simp [ServerState.empty, ServerState.start, serverCount,
            ServerState.lookup, Buffer.count, Buffer.sequence_count]
    · simp [ServerState.empty, ServerState.start, serverGetData,
            ServerState.lookup, Buffer.query, Buffer.sequence_count,
            Except.map]
    · simp [ServerState.empty, ServerState.start, serverStop,
            ServerState.lookup]
    · simp [ServerState.empty, ServerState.start, serverAppend,
            ServerState.lookup]

/-- C6 witness: the scenario instantiated with three concrete 2-channel
records. -/
theorem server_handle_scenario_witness :
    ∃ s1 s2 s3 s4 : ServerState,
      serverAppend (ServerState.empty.start ["ch0", "ch1"] "buf.db").2
        (ServerState.empty.start ["ch0", "ch1"] "buf.db").1
        ⟨[1, 2], 0, none⟩ = .ok s1 ∧
      serverAppend s1 (ServerState.empty.start ["ch0", "ch1"] "buf.db").1
        ⟨[3, 4], 1, none⟩ = .ok s2 ∧
      serverAppend s2 (ServerState.empty.start ["ch0", "ch1"] "buf.db").1
        ⟨[5, 6], 2, none⟩ = .ok s3 ∧
      serverCount s3
        (ServerState.empty.start ["ch0", "ch1"] "buf.db").1 = .ok 3 ∧
      serverGetData s3
        (ServerState.empty.start ["ch0", "ch1"] "buf.db").1 0 3 =
        .ok [⟨[1, 2], 0, none⟩, ⟨[3, 4], 1, none⟩, ⟨[5, 6], 2, none⟩] ∧
      serverStop s3
        (ServerState.empty.start ["ch0", "ch1"] "buf.db").1 = .ok s4 ∧
      serverAppend s4 (ServerState.empty.start ["ch0", "ch1"] "buf.db").1
        ⟨[1, 2], 0, none⟩ = .error .HandleInvalidError :=
  server_handle_scenario.2 ⟨[1, 2], 0, none⟩ ⟨[3, 4], 1, none⟩
    ⟨[5, 6], 2, none⟩ (by decide) (by decide) (by decide)

lemma mapM_option_spec {α β : Type} (f : α → Option β) :
    ∀ (xs : List α) (ys : List β), xs.mapM f = some ys →
      ys.length = xs.length ∧ ∀ y ∈ ys, ∃ x ∈ xs, f x = some y := by
  intro xs
  induction xs with
  | nil =>
    intro ys h
    rw [List.mapM_nil] at h
    injection h with h2
    subst h2
    simp
  | cons x xs ih =>
    intro ys h
    rw [List.mapM_cons] at h
    cases hfx : f x with
    | none => rw [hfx] at h; exact absurd h (by simp)
    | some y =>
      rw [hfx] at h
      cases hrest : xs.mapM f with
      | none => rw [hrest] at h; exact absurd h (by simp)
      | some ys2 =>
        rw [hrest] at h
        simp only [Option.bind_eq_bind, Option.some_bind, Option.pure_def,
          Option.some.injEq] at h
        subst h
        obtain ⟨hlen, hmem⟩ := ih ys2 hrest
        refine ⟨by simp [hlen], ?_⟩
        intro z hz
        rcases List.mem_cons.mp hz with hzy | hz2
        · exact ⟨x, List.mem_cons_self x xs, by rw [hfx, hzy]⟩
        · obtain ⟨w, hw, hfw⟩ := hmem z hz2
          exact ⟨w, List.mem_cons_of_mem x hw, hfw⟩

lemma npSetRow_length (xs : List ℚ) (n : Nat) (ys : List ℚ)
    (h : npSetRow xs n = some ys) : ys.length = n := by
  rw [npSetRow] at h
  split at h
  · rename_i hlen
    injection h with h2
    subst h2
    exact hlen
  · split at h
    · injection h with h2
      subst h2
      simp
    · exact absurd h (by simp)

/-- C9: whenever `trial_reshaper` returns, its labels are exactly the
indicator of the trigger line's second field equalling target (one
label per trigger line), and the reshaped trials have shape
(number of trigger lines) x (number of channels in `filtered_eeg`) x
`int(fs/2/k)`. -/
theorem trial_reshaper_spec (trigger_txt : List TriggerLine)
    (filtered_eeg : List (List ℚ)) (fs k : Nat)
    (trials : List (List (List ℚ))) (labels : List ℚ) (_hk : 0 < k)
    (h : trial_reshaper trigger_txt filtered_eeg fs k =
      some (trials, labels)) :
    labels = trigger_txt.map
      (fun line => if line.field1 = "target" then (1 : ℚ) else 0) ∧
    trials.length = trigger_txt.length ∧
    ∀ row ∈ trials, row.length = filtered_eeg.length ∧
      ∀ samples ∈ row, samples.length = fs / 2 / k := by
  simp only [trial_reshaper, Option.map_eq_some'] at h
  obtain ⟨rts, hm, hpair⟩ := h
  have hrt : rts = trials := congrArg Prod.fst hpair
  have hlb : trigger_txt.map
      (fun line => if line.field1 = "target" then (1 : ℚ) else 0) =
      labels := congrArg Prod.snd hpair
  subst hrt
  obtain ⟨hlen, hmem⟩ := mapM_option_spec _ _ _ hm
  refine ⟨hlb.symm, ?_, ?_⟩
  · rw [hlen, List.length_map]
  · intro row hrow
    obtain ⟨t, _, hft⟩ := hmem row hrow
    obtain ⟨hlen2, hmem2⟩ := mapM_option_spec _ _ _ hft
    refine ⟨hlen2, ?_⟩
    intro samples hs
    obtain ⟨channel, _, hnp⟩ := hmem2 samples hs
    exact npSetRow_length _ _ _ hnp

/-- C9 witness: two trigger lines (one target, one nontarget) with
fs = 4, k = 1 and an empty channel list yield labels [1, 0] and one
empty row per trial. -/
theorem trial_reshaper_spec_witness :
    [(1 : ℚ), 0] =
      ([⟨"x", "target", 1⟩, ⟨"y", "nontarget", 2⟩] :
        List TriggerLine).map
        (fun line => if line.field1 = "target" then (1 : ℚ) else 0) ∧
    ([[], []] : List (List (List ℚ))).length =
      ([⟨"x", "target", 1⟩, ⟨"y", "nontarget", 2⟩] :
        List TriggerLine).length ∧
    ∀ row ∈ ([[], []] : List (List (List ℚ))),
      row.length = ([] : List (List ℚ)).length ∧
      ∀ samples ∈ row, samples.length = 4 / 2 / 1 :=
  trial_reshaper_spec [⟨"x", "target", 1⟩, ⟨"y", "nontarget", 2⟩] [] 4 1
    [[], []] [1, 0] (by decide) (by rfl)

/-- C10: when the parameters dict has the required keys,
`init_eeg_acquisition` passes the Client a `buffer_name` of
`save_folder + '/' + parameters['buffer_name']` and a `filename` of
`save_folder + '/' + parameters['raw_data_name']`; the rebuilt dict
always contains the `buffer_name` and `filename` keys, so the `.get`
fallbacks are never used — the result is independent of the default
arguments. -/
theorem init_eeg_acquisition_paths (parameters : List (String × PyVal))
    (save_folder bn rdn : String) (hostv portv devv : PyVal)
    (hh : pyGet? parameters "acq_host" = some hostv)
    (hp : pyGet? parameters "acq_port" = some portv)
    (hb : pyGet? parameters "buffer_name" = some (.str bn))
    (hd : pyGet? parameters "acq_device" = some devv)
    (hr : pyGet? parameters "raw_data_name" = some (.str rdn)) :
    init_eeg_acquisition parameters save_folder =
      some { buffer_name := save_folder ++ "/" ++ bn,
             filename := save_folder ++ "/" ++ rdn } ∧
    rebuilt_parameters parameters save_folder = some
      [("buffer_name", .str (save_folder ++ "/" ++ bn)),
       ("device", devv),
       ("filename", .str (save_folder ++ "/" ++ rdn)),
       ("connection_params", .dict [("host", hostv), ("port", portv)])] ∧
    ∀ d1 d2 : PyVal,
      pyGetD [("buffer_name", .str (save_folder ++ "/" ++ bn)),
              ("device", devv),
              ("filename", .str (save_folder ++ "/" ++ rdn)),
              ("connection_params",
               .dict [("host", hostv), ("port", portv)])]
          "buffer_name" d1 = .str (save_folder ++ "/" ++ bn) ∧
      pyGetD [("buffer_name", .str (save_folder ++ "/" ++ bn)),
              ("device", devv),
              ("filename", .str (save_folder ++ "/" ++ rdn)),
              ("connection_params",
               .dict [("host", hostv), ("port", portv)])]
          "filename" d2 = .str (save_folder ++ "/" ++ rdn) := by
  have hps : rebuilt_parameters parameters save_folder = some
      [("buffer_name", .str (save_folder ++ "/" ++ bn)),
       ("device", devv),
       ("filename", .str (save_folder ++ "/" ++ rdn)),
       ("connection_params", .dict [("host", hostv), ("port", portv)])] := by
    rw [rebuilt_parameters, hh, hp, hb, hd, hr]
    rfl
  refine ⟨?_, hps, ?_⟩
  · rw [init_eeg_acquisition, hps]
    rfl
  · intro d1 d2
    exact ⟨rfl, rfl⟩

/-- C10 witness: a concrete parameters dict with all required keys. -/
theorem init_eeg_acquisition_paths_witness :
    init_eeg_acquisition
      [("acq_device", .str "DSI"), ("acq_host", .str "127.0.0.1"),
       ("acq_port", .int 9000), ("buffer_name", .str "buffer.db"),
       ("raw_data_name", .str "rawdata.csv")] "data2" =
      some { buffer_name := "data2" ++ "/" ++ "buffer.db",
             filename := "data2" ++ "/" ++ "rawdata.csv" } ∧
    rebuilt_parameters
      [("acq_device", .str "DSI"), ("acq_host", .str "127.0.0.1"),
       ("acq_port", .int 9000), ("buffer_name", .str "buffer.db"),
       ("raw_data_name", .str "rawdata.csv")] "data2" = some
      [("buffer_name", .str ("data2" ++ "/" ++ "buffer.db")),
       ("device", .str "DSI"),
       ("filename", .str ("data2" ++ "/" ++ "rawdata.csv")),
       ("connection_params",
        .dict [("host", .str "127.0.0.1"), ("port", .int 9000)])] ∧
    ∀ d1 d2 : PyVal,
      pyGetD [("buffer_name", .str ("data2" ++ "/" ++ "buffer.db")),
              ("device", .str "DSI"),
              ("filename", .str ("data2" ++ "/" ++ "rawdata.csv")),
              ("connection_params",
               .dict [("host", .str "127.0.0.1"), ("port", .int 9000)])]
          "buffer_name" d1 = .str ("data2" ++ "/" ++ "buffer.db") ∧
      pyGetD [("buffer_name", .str ("data2" ++ "/" ++ "buffer.db")),
              ("device", .str "DSI"),
              ("filename", .str ("data2" ++ "/" ++ "rawdata.csv")),
              ("connection_params",
               .dict [("host", .str "127.0.0.1"), ("port", .int 9000)])]
          "filename" d2 = .str ("data2" ++ "/" ++ "rawdata.csv") :=
  init_eeg_acquisition_paths
    [("acq_device", .str "DSI"), ("acq_host", .str "127.0.0.1"),
     ("acq_port", .int 9000), ("buffer_name", .str "buffer.db"),
     ("raw_data_name", .str "rawdata.csv")] "data2" "buffer.db"
    "rawdata.csv" (.str "127.0.0.1") (.int 9000) (.str "DSI")
    (by rfl) (by rfl) (by rfl) (by rfl) (by rfl)

end BciPy
